import Mathlib

/-!
Shallow embedding of the CINCPro delivery code (src/api.py, src/auth.py) and
proofs about it. HTTP traffic is modelled by passing each call the response
it receives; the helper `rate_limited` and the exception class `AuthError`
live in src/utils.py, which is not among the sources: per the spec (section
4.3) the rate limiter does not alter the wrapped operation result or error
behavior, so wrapped functions are embedded directly, and `AuthError` is
modelled as an exception constructor carrying its message.
-/

namespace CincPro

/-- A Python JSON-like value, as produced by requests `response.json()` and
by the payload dictionaries built in src/api.py. -/
inductive PyVal where
  | vNone
  | vStr (s : String)
  | vBool (b : Bool)
  | vDict (fields : List (String × PyVal))
  | vList (items : List PyVal)

/-- Key lookup in the field list of a Python dict (first match wins; the
dicts built here never repeat a key). -/
def lookupField : List (String × PyVal) → String → Option PyVal
  | [], _ => none
  | (k, v) :: rest, key => if k = key then some v else lookupField rest key

/-- `d.get(key)`: some value when `d` is a dict containing the key, none
otherwise. -/
def pyGet : PyVal → String → Option PyVal
  | PyVal.vDict fields, key => lookupField fields key
  | _, _ => none

/-- Python truthiness of a JSON-like value (None, the empty string, false,
and empty containers are falsy). -/
def pyTruthy : PyVal → Bool
  | PyVal.vNone => false
  | PyVal.vStr s => !s.isEmpty
  | PyVal.vBool b => b
  | PyVal.vDict fields => !fields.isEmpty
  | PyVal.vList items => !items.isEmpty

/-- Python truthiness of an optional string cell: None and the empty string
are falsy. -/
def truthy : Option String → Bool
  | none => false
  | some s => !s.isEmpty

/-- Embed an optional string as the Python value stored in a dict (None or
the string itself). -/
def optVal : Option String → PyVal
  | none => PyVal.vNone
  | some s => PyVal.vStr s

/-- The pattern `str(x) if x else None` from src/api.py lines 167-173: on a
string-valued cell, str is the identity, so the coercion keeps a truthy
value and turns a falsy one into None. -/
def strCoerce (v : Option String) : Option String :=
  if truthy v then v else none

/-- Python exceptions raised in the embedded code.
`typeError` is the error raised by calling a function without a required
positional argument; `valueError` is raised by ThreadPoolExecutor when
max_workers is not positive; `httpError` comes from
`response.raise_for_status()`. `AuthError` is defined in src/utils.py,
which is not among the sources. Modelled from the spec: `AuthError` (spec
section 7) is the authentication failure exception carrying a message. -/
inductive PyError where
  | typeError
  | valueError
  | httpError (status : Nat)
  | authError (msg : String)
deriving Repr, DecidableEq

/-- `str(e)` for an embedded exception, as recorded in the failure log. -/
def PyError.toMsg : PyError → String
  | PyError.typeError => "refresh_token missing 1 required positional argument"
  | PyError.valueError => "max_workers must be greater than 0"
  | PyError.httpError status => "HTTP error " ++ toString status
  | PyError.authError msg => msg

/-- The observable part of a requests HTTP response: status code and JSON
body. -/
structure HttpResponse where
  status : Nat
  body : PyVal

/-- `Response.raise_for_status()`: raises HTTPError exactly for the client
and server error status codes, 400 to 599; any other surfaced status (1xx,
2xx, 3xx, or 600 and above) returns without raising. -/
def raiseForStatus (r : HttpResponse) : Except PyError Unit :=
  if 400 ≤ r.status ∧ r.status < 600 then Except.error (PyError.httpError r.status)
  else Except.ok ()

/-- requests `Response.ok`: true exactly when `raise_for_status` does not
raise, that is, for every status outside the 400-599 error range. -/
def respOk (r : HttpResponse) : Bool :=
  !(400 ≤ r.status && r.status < 600)

/-- The Streamlit session-state keys touched by src/auth.py. -/
structure Session where
  authenticated : Bool
  access_token : PyVal
  refresh_token : PyVal
  username : PyVal
  state : PyVal

/-- src/auth.py `reset_session`: clears every session key. -/
def reset_session (_sess : Session) : Session :=
  { authenticated := false, access_token := PyVal.vNone, refresh_token := PyVal.vNone,
    username := PyVal.vNone, state := PyVal.vNone }

/-- What a token-endpoint interaction leaves behind: the raised exception or
success, together with the session state afterwards. -/
structure ExchangeResult where
  result : Except PyError Unit
  session : Session

/-- src/auth.py `exchange_code_for_token`, given the response of the token
endpoint POST: `raise_for_status`, then read `access_token` and
`refresh_token` from the JSON body; if either is falsy, reset the session
and raise AuthError; otherwise store both tokens in the session. -/
def exchange_code_for_token (sess : Session) (response : HttpResponse) : ExchangeResult :=
  match raiseForStatus response with
  | Except.error e => { result := Except.error e, session := sess }
  | Except.ok _ =>
    let access_token := (pyGet response.body "access_token").getD PyVal.vNone
    let rtok := (pyGet response.body "refresh_token").getD PyVal.vNone
    if !pyTruthy access_token || !pyTruthy rtok then
      { result := Except.error (PyError.authError "Access or Refresh token not found in response."),
        session := reset_session sess }
    else
      { result := Except.ok (),
        session := { sess with access_token := access_token, refresh_token := rtok } }

/-- Did the exchange raise AuthError? -/
def ExchangeResult.isAuthFailure (r : ExchangeResult) : Bool :=
  match r.result with
  | Except.error (PyError.authError _) => true
  | _ => false

/-- Did the exchange raise any exception? -/
def ExchangeResult.isFailure (r : ExchangeResult) : Bool :=
  match r.result with
  | Except.error _ => true
  | Except.ok _ => false

/-- Outcome of `_verify_api_credentials`: the returned boolean or the raised
exception, together with how many refresh POSTs were made. -/
structure VerifyOutcome where
  result : Except PyError Bool
  refresh_calls : Nat

/-- src/api.py `_verify_api_credentials`, given the response of the GET on
/me and the response a retried GET would receive. On 401 the source (line
94) executes the call `refresh_token()` with no argument, but
`auth.refresh_token` (src/auth.py line 60) has one required positional
argument, so Python raises TypeError at that call: no refresh POST is made
and the retry GET on line 95 is never reached. Otherwise the method returns
`response.ok`, which requests defines as any status outside the 400-599
error range. -/
def verify_api_credentials (first : HttpResponse) (_retry : HttpResponse) : VerifyOutcome :=
  if first.status = 401 then
    { result := Except.error PyError.typeError, refresh_calls := 0 }
  else if respOk first then
    { result := Except.ok true, refresh_calls := 0 }
  else
    { result := Except.ok false, refresh_calls := 0 }

/-- One well-formed lead row of the batch dataframe. The collaborator
contract (spec section 6) guarantees that every one of these columns exists
in the batch, so `row.get(col)` and `row[col]` agree on it; a value of none
models an absent (null or empty) cell. -/
structure Lead where
  md5 : Option String
  first_name : Option String
  last_name : Option String
  email_1 : Option String
  phone_1 : Option String
  phone_2 : Option String
  phone_3 : Option String
  address : Option String
  city : Option String
  state : Option String
  zip_code : Option String
  insight : Option String
deriving Repr, DecidableEq

/-- One entry of `self.failed_leads` (src/api.py lines 142-145): the md5 of
the lead together with `str(e)`. -/
structure FailEntry where
  md5 : Option String
  error : String
deriving Repr, DecidableEq

/-- The fields a constructed CINCProDeliverer holds (src/api.py lines
39-51). -/
structure CINCProDeliverer where
  access_token : String
  base_url : String
  tags : List String
  add_zip_tags : Bool
  primary_agent : Option String
  listing_agent : Option String
  partner : Option String
  failed_leads : List FailEntry
  n_threads : Int
deriving Repr, DecidableEq

/-- src/api.py `__init__`: store the configuration (`tags or []` for the tag
list, an empty failure log, the raw n_threads) and verify the credentials;
raise AuthError when verification returns false and propagate any exception
verification raises. The two response arguments are the answers the GET on
/me (and its retry) would receive. -/
def CINCProDeliverer.init (access_token : String) (tags : Option (List String))
    (add_zip_tags : Bool) (primary_agent listing_agent partner : Option String)
    (base_url : String) (n_threads : Int)
    (meFirst meRetry : HttpResponse) : Except PyError CINCProDeliverer :=
  let self : CINCProDeliverer :=
    { access_token := access_token, base_url := base_url, tags := tags.getD [],
      add_zip_tags := add_zip_tags, primary_agent := primary_agent,
      listing_agent := listing_agent, partner := partner,
      failed_leads := [], n_threads := n_threads }
  match (verify_api_credentials meFirst meRetry).result with
  | Except.error e => Except.error e
  | Except.ok true => Except.ok self
  | Except.ok false =>
      Except.error
        (PyError.authError "Could not verify credentials for CincPro delivery. Please re-authenticate.")

/-- src/api.py `get_failure_leads`: return `self.failed_leads`. -/
def CINCProDeliverer.get_failure_leads (self : CINCProDeliverer) : List FailEntry :=
  self.failed_leads

/-- The `phone_numbers` sub-dict of the contact info (src/api.py lines
188-190): always present, each value the str-coerced phone or None. -/
def phone_numbers_dict (lead : Lead) : PyVal :=
  PyVal.vDict
    [("cell_phone", optVal (strCoerce lead.phone_1)),
     ("home_phone", optVal (strCoerce lead.phone_2)),
     ("work_phone", optVal (strCoerce lead.phone_3))]

/-- The `mailing_address` sub-dict (src/api.py lines 193-198). -/
def mailing_dict (lead : Lead) : PyVal :=
  PyVal.vDict
    [("street", optVal lead.address), ("city", optVal lead.city),
     ("state", optVal lead.state), ("postal_or_zip", optVal (strCoerce lead.zip_code))]

/-- The `contact_info` dict built by `_prepare_event_data` (src/api.py lines
179-198), as its insertion-ordered key list: names first, then the email
pair when the email cell is truthy, then the phone numbers, then the
mailing address when `all([address, city, state, zip_code])` holds for the
str-coerced zip. -/
def contact_pairs (lead : Lead) : List (String × PyVal) :=
  [("first_name", optVal lead.first_name), ("last_name", optVal lead.last_name)]
  ++ (if truthy lead.email_1 then
        [("email", optVal lead.email_1), ("is_validated_email", PyVal.vBool true)]
      else [])
  ++ [("phone_numbers", phone_numbers_dict lead)]
  ++ (if truthy lead.address && truthy lead.city && truthy lead.state
         && truthy (strCoerce lead.zip_code) then
        [("mailing_address", mailing_dict lead)]
      else [])

/-- The `notes` list (src/api.py lines 201-209): at most one entry, built
only when the insight cell is truthy. Both timestamps of the payload come
from `datetime.now` at generation time; the parameter `now` stands for that
timestamp. -/
def notes_list (lead : Lead) (now : String) : List PyVal :=
  if truthy lead.insight then
    [PyVal.vDict
      [("content", optVal lead.insight), ("category", PyVal.vStr "info"),
       ("created_by", PyVal.vStr "Real Intent"), ("created_date", PyVal.vStr now)]]
  else []

/-- src/api.py `_prepare_event_data` (lines 151-240). Lines 211-215, the tag
handling, evaluate their conditions and execute `pass`: with every column
present on a well-formed lead the subscript `lead["zip_code"]` succeeds, so
those lines touch nothing in the returned payload. -/
def CINCProDeliverer._prepare_event_data (self : CINCProDeliverer) (lead : Lead)
    (now : String) : PyVal :=
  PyVal.vDict
    [("id", optVal lead.md5),
     ("registered_date", PyVal.vStr now),
     ("info", PyVal.vDict
        [("status", PyVal.vStr "unworked"),
         ("source", PyVal.vStr "Real Intent"),
         ("contact", PyVal.vDict (contact_pairs lead))]),
     ("assigned_agents", PyVal.vDict
        [("primary_agent", PyVal.vDict [("id", optVal self.primary_agent)]),
         ("listing_agent", PyVal.vDict [("id", optVal self.listing_agent)]),
         ("partner", PyVal.vDict [("id", optVal self.partner)])]),
     ("notes", PyVal.vList (notes_list lead now))]

/-- src/api.py `_send_event` (lines 242-273), given the response of the POST
on /leads: `raise_for_status`, then return `response.json()`. The method
reads self only for the request headers, which do not affect the modelled
response. -/
def send_event (response : HttpResponse) : Except PyError PyVal :=
  match raiseForStatus response with
  | Except.error e => Except.error e
  | Except.ok _ => Except.ok response.body

/-- src/api.py `_deliver_single_lead` (lines 119-149): build the payload and
send it; any exception is caught, recorded in `self.failed_leads` together
with the lead md5, and converted into a failed outcome dict. The response
argument is the answer the POST for this lead receives. -/
def CINCProDeliverer._deliver_single_lead (self : CINCProDeliverer) (now : String)
    (lead : Lead) (response : HttpResponse) : PyVal × CINCProDeliverer :=
  let _event_data := self._prepare_event_data lead now
  match send_event response with
  | Except.ok body => (body, self)
  | Except.error e =>
      (PyVal.vDict [("status", PyVal.vStr "failed"), ("error", PyVal.vStr e.toMsg)],
       { self with failed_leads := self.failed_leads ++ [{ md5 := lead.md5, error := e.toMsg }] })

/-- The rows of `executor.map`, processed in order: each row is a lead
paired with the response its POST receives, and each attempt threads the
failure log forward. -/
def deliverAux (now : String) :
    CINCProDeliverer → List (Lead × HttpResponse) → List PyVal × CINCProDeliverer
  | self, [] => ([], self)
  | self, p :: rest =>
      let step := self._deliver_single_lead now p.1 p.2
      let restResult := deliverAux now step.2 rest
      (step.1 :: restResult.1, restResult.2)

/-- src/api.py `deliver` (lines 105-117): map `_deliver_single_lead` over
every row of the batch through a thread pool. ThreadPoolExecutor raises
ValueError when max_workers is not positive; otherwise `executor.map`
yields exactly one result per row, in input order. -/
def CINCProDeliverer.deliver (self : CINCProDeliverer) (now : String)
    (batch : List (Lead × HttpResponse)) :
    Except PyError (List PyVal × CINCProDeliverer) :=
  if self.n_threads ≤ 0 then Except.error PyError.valueError
  else Except.ok (deliverAux now self batch)

/-- The outcome `_deliver_single_lead` returns for one lead: it depends only
on that lead and on the response its own POST receives. -/
def outcomeOf (self : CINCProDeliverer) (now : String) (p : Lead × HttpResponse) : PyVal :=
  (self._deliver_single_lead now p.1 p.2).1

/-- The failure-log entry one lead contributes: an entry when its send
raises, none when it succeeds. -/
def failEntryOf (p : Lead × HttpResponse) : Option FailEntry :=
  match send_event p.2 with
  | Except.ok _ => none
  | Except.error e => some { md5 := p.1.md5, error := e.toMsg }

/-- Look a key up in the contact object of the built payload. -/
def payloadContactGet (self : CINCProDeliverer) (lead : Lead) (now key : String) :
    Option PyVal :=
  ((pyGet (self._prepare_event_data lead now) "info").bind fun info =>
    pyGet info "contact").bind fun contact => pyGet contact key

/-- The outcome of one attempt ignores the accumulated failure log: it is a
function of the configuration, the lead and the response only. -/
theorem outcomeOf_failed_leads_irrel (self : CINCProDeliverer) (L : List FailEntry)
    (now : String) :
    outcomeOf { self with failed_leads := L } now = outcomeOf self now := by
  funext p
  unfold outcomeOf CINCProDeliverer._deliver_single_lead
  cases send_event p.2 <;> rfl

/-- Processing a batch yields one outcome per row, each computed from its
own row alone, and extends the failure log by exactly the entries of the
failing rows, in order. -/
theorem deliverAux_spec (now : String) (batch : List (Lead × HttpResponse)) :
    ∀ self : CINCProDeliverer,
      deliverAux now self batch
        = (batch.map (outcomeOf self now),
           { self with failed_leads := self.failed_leads ++ batch.filterMap failEntryOf }) := by
  induction batch with
  | nil => intro self; simp [deliverAux]
  | cons p rest ih =>
      intro self
      cases hsend : send_event p.2 with
      | ok body =>
          simp [deliverAux, CINCProDeliverer._deliver_single_lead, outcomeOf, failEntryOf,
            hsend, ih]
      | error e =>
          simp [deliverAux, CINCProDeliverer._deliver_single_lead, outcomeOf, failEntryOf,
            hsend, ih, outcomeOf_failed_leads_irrel, List.append_assoc]

/-- Claim C1: for every batch, `deliver` returns exactly one outcome per
lead (so the result has the length of the batch), each outcome computed
from that lead and its own response alone — a failing build or send is
caught locally, recorded in the failure log, and leaves every remaining
lead to be attempted as if it had not happened. -/
theorem deliver_outcome_count_and_isolation (self : CINCProDeliverer) (now : String)
    (batch : List (Lead × HttpResponse)) (h : 0 < self.n_threads) :
    self.deliver now batch
      = Except.ok (batch.map (outcomeOf self now),
          { self with failed_leads := self.failed_leads ++ batch.filterMap failEntryOf })
    ∧ (batch.map (outcomeOf self now)).length = batch.length := by
  constructor
  · unfold CINCProDeliverer.deliver
    rw [if_neg (by omega), deliverAux_spec]
  · simp

/-- A lead with every optional cell absent, for concrete instances. -/
def emptyLead : Lead :=
  { md5 := none, first_name := none, last_name := none, email_1 := none,
    phone_1 := none, phone_2 := none, phone_3 := none, address := none,
    city := none, state := none, zip_code := none, insight := none }

def wLead1 : Lead := { emptyLead with md5 := some "w1", first_name := some "A" }

def wLead2 : Lead := { emptyLead with md5 := some "w2", first_name := some "B" }

/-- A 200 response whose JSON body reports the delivered status. -/
def respDelivered : HttpResponse :=
  { status := 200, body := PyVal.vDict [("status", PyVal.vStr "delivered")] }

/-- A 500 response, as in the simulated-failure scenario of the spec. -/
def resp500 : HttpResponse := { status := 500, body := PyVal.vDict [] }

def wDeliverer : CINCProDeliverer :=
  { access_token := "tok", base_url := "url", tags := [], add_zip_tags := true,
    primary_agent := none, listing_agent := none, partner := none,
    failed_leads := [], n_threads := 1 }

def wBatch : List (Lead × HttpResponse) := [(wLead1, respDelivered), (wLead2, resp500)]

/-- Witness for C1 at a concrete two-lead batch whose second send fails. -/
theorem deliver_outcome_count_and_isolation_witness :
    0 < wDeliverer.n_threads
    ∧ (wDeliverer.deliver "T" wBatch
        = Except.ok (wBatch.map (outcomeOf wDeliverer "T"),
            { wDeliverer with
                failed_leads := wDeliverer.failed_leads ++ wBatch.filterMap failEntryOf })
       ∧ (wBatch.map (outcomeOf wDeliverer "T")).length = wBatch.length) :=
  ⟨by decide, deliver_outcome_count_and_isolation wDeliverer "T" wBatch (by decide)⟩

/-- Claim C2 (the code contradicts it): with a GET on /me answering 401 and
a retry that would answer 200, `_verify_api_credentials` raises TypeError at
the zero-argument call `refresh_token()` — `auth.refresh_token` requires
its refresh-token argument — so zero refresh calls are made, no retry
happens, and no boolean is returned. -/
theorem verify_typeerror_on_401 :
    verify_api_credentials { status := 401, body := PyVal.vNone }
        { status := 200, body := PyVal.vNone }
      = { result := Except.error PyError.typeError, refresh_calls := 0 } := rfl

def c3Lead1 : Lead := { emptyLead with md5 := some "m1", first_name := some "Ann" }

def c3Lead2 : Lead := { emptyLead with md5 := some "m2", first_name := some "Bob" }

def c3Lead3 : Lead := { emptyLead with md5 := some "m3", first_name := some "Cyd" }

def c3Batch : List (Lead × HttpResponse) :=
  [(c3Lead1, respDelivered), (c3Lead2, resp500), (c3Lead3, respDelivered)]

def c3Result : List PyVal × CINCProDeliverer := deliverAux "T" wDeliverer c3Batch

/-- Claim C3: on a batch of 3 leads whose 2nd send gets a 500, `deliver`
returns 3 outcomes, `get_failure_leads` holds exactly one entry carrying
the md5 of the failed lead, and the 1st and 3rd outcomes carry the
delivered status echoed by the CRM. -/
theorem deliver_batch3_second_lead_fails :
    wDeliverer.deliver "T" c3Batch = Except.ok c3Result
    ∧ c3Result.1.length = 3
    ∧ c3Result.2.get_failure_leads = [{ md5 := some "m2", error := "HTTP error 500" }]
    ∧ (c3Result.1.get? 0).bind (fun o => pyGet o "status") = some (PyVal.vStr "delivered")
    ∧ (c3Result.1.get? 2).bind (fun o => pyGet o "status") = some (PyVal.vStr "delivered") :=
  ⟨rfl, rfl, rfl, rfl, rfl⟩

/-- A session with nothing stored, for concrete instances. -/
def sess0 : Session :=
  { authenticated := false, access_token := PyVal.vNone, refresh_token := PyVal.vNone,
    username := PyVal.vNone, state := PyVal.vNone }

/-- Counterexample to C4 as stated: a 500 from the token endpoint makes
`exchange_code_for_token` fail, but with HTTPError (from
`raise_for_status`) rather than AuthError; the session is left untouched. -/
theorem exchange_non2xx_not_autherror :
    (exchange_code_for_token sess0 resp500).isFailure = true
    ∧ (exchange_code_for_token sess0 resp500).isAuthFailure = false
    ∧ (exchange_code_for_token sess0 resp500).session = sess0 :=
  ⟨rfl, rfl, rfl⟩

/-- Claim C4 amended: a status in the 400-599 error range raises HTTPError
(not AuthError) and leaves the session unchanged, while a response whose
status `raise_for_status` lets through (below 400, or 600 and above) and
whose body lacks a truthy access token or refresh token raises AuthError
after resetting the session; in both failure cases no token value from the
response is stored. -/
theorem exchange_failure_modes (sess : Session) (resp : HttpResponse) :
    (400 ≤ resp.status → resp.status < 600 →
        exchange_code_for_token sess resp
          = { result := Except.error (PyError.httpError resp.status), session := sess })
    ∧ ((resp.status < 400 ∨ 600 ≤ resp.status) →
        (pyTruthy ((pyGet resp.body "access_token").getD PyVal.vNone) = false
          ∨ pyTruthy ((pyGet resp.body "refresh_token").getD PyVal.vNone) = false) →
        exchange_code_for_token sess resp
          = { result := Except.error
                (PyError.authError "Access or Refresh token not found in response."),
              session := reset_session sess }) := by
  constructor
  · intro h4 h6
    unfold exchange_code_for_token raiseForStatus
    rw [if_pos ⟨h4, h6⟩]
  · intro hout hmiss
    unfold exchange_code_for_token raiseForStatus
    rw [if_neg (by intro hc; rcases hout with h | h <;> omega)]
    have hcond : (!pyTruthy ((pyGet resp.body "access_token").getD PyVal.vNone)
        || !pyTruthy ((pyGet resp.body "refresh_token").getD PyVal.vNone)) = true := by
      rcases hmiss with h | h <;> simp [h]
    simp only [hcond, if_true]

/-- A 200 token response carrying an access token but no refresh token. -/
def respMissingRefresh : HttpResponse :=
  { status := 200, body := PyVal.vDict [("access_token", PyVal.vStr "A")] }

/-- Witness for the amended C4 at both failure modes. -/
theorem exchange_failure_modes_witness :
    (400 ≤ resp500.status ∧ resp500.status < 600
      ∧ exchange_code_for_token sess0 resp500
          = { result := Except.error (PyError.httpError resp500.status), session := sess0 })
    ∧ ((respMissingRefresh.status < 400 ∨ 600 ≤ respMissingRefresh.status)
      ∧ exchange_code_for_token sess0 respMissingRefresh
          = { result := Except.error
                (PyError.authError "Access or Refresh token not found in response."),
              session := reset_session sess0 }) :=
  ⟨⟨by decide, by decide, (exchange_failure_modes sess0 resp500).1 (by decide) (by decide)⟩,
   ⟨by decide,
    (exchange_failure_modes sess0 respMissingRefresh).2 (by decide) (Or.inr rfl)⟩⟩

/-- Counterexample to C5 as stated: 302 is a non-2xx status other than 401,
yet `_verify_api_credentials` returns true, because requests `Response.ok`
holds for every status below 400. -/
theorem verify_302_returns_true :
    verify_api_credentials { status := 302, body := PyVal.vNone }
        { status := 302, body := PyVal.vNone }
      = { result := Except.ok true, refresh_calls := 0 } := rfl

/-- Claim C5 amended: for a status in the 400-599 error range different
from 401 — 403 in particular — verification returns false and makes zero
refresh calls (a surfaced status outside that range, such as a 302, instead
returns true, since `Response.ok` holds exactly when `raise_for_status`
would not raise). -/
theorem verify_false_on_4xx_5xx_non401 (first retry : HttpResponse)
    (h4 : 400 ≤ first.status) (h6 : first.status < 600) (h401 : first.status ≠ 401) :
    verify_api_credentials first retry
      = { result := Except.ok false, refresh_calls := 0 } := by
  unfold verify_api_credentials
  rw [if_neg h401, if_neg (by simp [respOk]; omega)]

/-- Witness for the amended C5 at a 403 response. -/
theorem verify_false_on_4xx_5xx_non401_witness :
    400 ≤ (403 : Nat) ∧ (403 : Nat) < 600 ∧ (403 : Nat) ≠ 401
    ∧ verify_api_credentials { status := 403, body := PyVal.vNone }
          { status := 403, body := PyVal.vNone }
        = { result := Except.ok false, refresh_calls := 0 } :=
  ⟨by decide, by decide, by decide,
   verify_false_on_4xx_5xx_non401 { status := 403, body := PyVal.vNone }
     { status := 403, body := PyVal.vNone } (by decide) (by decide) (by decide)⟩

/-- The contact object of the built payload is the contact dict, so a key
lookup there is a lookup in the contact pair list. -/
theorem payloadContactGet_eq (self : CINCProDeliverer) (lead : Lead) (now key : String) :
    payloadContactGet self lead now key = lookupField (contact_pairs lead) key := rfl

/-- The str coercion keeps truthiness. -/
theorem truthy_strCoerce (v : Option String) : truthy (strCoerce v) = truthy v := by
  unfold strCoerce
  cases h : truthy v <;> simp [h] <;> rfl

/-- Claim C6: the contact object carries the email and is_validated_email
keys exactly when the lead has an email (a truthy email cell), the email
key holding that email and is_validated_email holding true; with no email
both keys are absent. -/
theorem payload_email_keys_iff_email (self : CINCProDeliverer) (lead : Lead)
    (now : String) :
    payloadContactGet self lead now "email"
        = (if truthy lead.email_1 then some (optVal lead.email_1) else none)
    ∧ payloadContactGet self lead now "is_validated_email"
        = (if truthy lead.email_1 then some (PyVal.vBool true) else none) := by
  rw [payloadContactGet_eq, payloadContactGet_eq]
  unfold contact_pairs
  constructor <;>
    (cases he : truthy lead.email_1 <;>
      cases hm : truthy lead.address && truthy lead.city && truthy lead.state
          && truthy (strCoerce lead.zip_code) <;>
        simp [he, hm, lookupField])

/-- Claim C7: the contact object carries mailing_address exactly when all
four of street, city, state and zip are present (truthy), and then it holds
those four values; with any of them missing the key is absent entirely. -/
theorem payload_mailing_address_iff_all_four (self : CINCProDeliverer) (lead : Lead)
    (now : String) :
    payloadContactGet self lead now "mailing_address"
        = (if truthy lead.address && truthy lead.city && truthy lead.state
              && truthy lead.zip_code then
             some (PyVal.vDict
               [("street", optVal lead.address), ("city", optVal lead.city),
                ("state", optVal lead.state), ("postal_or_zip", optVal lead.zip_code)])
           else none) := by
  rw [payloadContactGet_eq]
  unfold contact_pairs mailing_dict
  rw [truthy_strCoerce]
  cases he : truthy lead.email_1 <;>
    cases ha : truthy lead.address <;>
      cases hc : truthy lead.city <;>
        cases hs : truthy lead.state <;>
          cases hz : truthy lead.zip_code <;>
            simp [he, ha, hc, hs, hz, lookupField, strCoerce]

/-- Claim C8: the built payload does not depend on the configured tag list
or the zip-tag toggle — two configurations differing only there produce the
same payload on every lead — so no tag value reaches any payload. -/
theorem payload_independent_of_tags (self : CINCProDeliverer) (lead : Lead)
    (now : String) (tagList : List String) (zipToggle : Bool) :
    CINCProDeliverer._prepare_event_data
        { self with tags := tagList, add_zip_tags := zipToggle } lead now
      = self._prepare_event_data lead now := rfl

/-- A 200 response for the credential check. -/
def r200 : HttpResponse := { status := 200, body := PyVal.vNone }

/-- The engine that constructing with n_threads = 0 and a valid credential
produces. -/
def zeroThreadsDeliverer : CINCProDeliverer :=
  { access_token := "tok", base_url := "url", tags := [], add_zip_tags := true,
    primary_agent := none, listing_agent := none, partner := none,
    failed_leads := [], n_threads := 0 }

/-- Counterexample to C9 as stated: construction succeeds with a worker-pool
size of 0 — `__init__` performs no validation of n_threads — so a
successfully constructed engine can violate the invariant. -/
theorem construct_zero_threads_ok :
    CINCProDeliverer.init "tok" none true none none none "url" 0 r200 r200
      = Except.ok zeroThreadsDeliverer
    ∧ zeroThreadsDeliverer.n_threads = 0 := ⟨rfl, rfl⟩

/-- Claim C9 amended: `__init__` stores n_threads without validating it, so
a successfully constructed engine carries exactly the value passed (1 only
by default); when that value is not positive the invariant fails and every
`deliver` call raises ValueError from the worker pool. -/
theorem init_does_not_validate_n_threads
    (tok : String) (tags0 : Option (List String)) (azt : Bool)
    (pa la pr : Option String) (url : String) (n : Int)
    (r1 r2 : HttpResponse) (d : CINCProDeliverer) (now : String)
    (batch : List (Lead × HttpResponse))
    (hinit : CINCProDeliverer.init tok tags0 azt pa la pr url n r1 r2 = Except.ok d)
    (hn : n ≤ 0) :
    d.n_threads = n ∧ d.deliver now batch = Except.error PyError.valueError := by
  unfold CINCProDeliverer.init at hinit
  cases hv : (verify_api_credentials r1 r2).result with
  | error e => rw [hv] at hinit; exact absurd hinit (by simp)
  | ok b =>
      cases b with
      | false => rw [hv] at hinit; exact absurd hinit (by simp)
      | true =>
          rw [hv] at hinit
          simp only [Except.ok.injEq] at hinit
          subst hinit
          refine ⟨rfl, ?_⟩
          unfold CINCProDeliverer.deliver
          rw [if_pos hn]

/-- Witness for the amended C9: the zero-thread engine from the
counterexample input. -/
theorem init_does_not_validate_n_threads_witness :
    CINCProDeliverer.init "tok" none true none none none "url" 0 r200 r200
        = Except.ok zeroThreadsDeliverer
    ∧ (0 : Int) ≤ 0
    ∧ (zeroThreadsDeliverer.n_threads = 0
       ∧ zeroThreadsDeliverer.deliver "T" [] = Except.error PyError.valueError) :=
  ⟨rfl, by decide,
   init_does_not_validate_n_threads "tok" none true none none none "url" 0 r200 r200
     zeroThreadsDeliverer "T" [] rfl (by decide)⟩

/-- Claim C10: the failure log is never cleared between batches — after a
second `deliver` call it equals the log after the first call extended by
the failures of the second batch, so every entry recorded during the first
call is still reported by `get_failure_leads`. -/
theorem failed_leads_accumulate
    (self d1 d2 : CINCProDeliverer) (now1 now2 : String)
    (b1 b2 : List (Lead × HttpResponse)) (o1 o2 : List PyVal)
    (h1 : self.deliver now1 b1 = Except.ok (o1, d1))
    (h2 : d1.deliver now2 b2 = Except.ok (o2, d2)) :
    d2.get_failure_leads = d1.get_failure_leads ++ b2.filterMap failEntryOf
    ∧ d1.get_failure_leads ⊆ d2.get_failure_leads := by
  clear h1
  unfold CINCProDeliverer.deliver at h2
  by_cases hn : d1.n_threads ≤ 0
  · rw [if_pos hn] at h2; exact absurd h2 (by simp)
  · rw [if_neg hn, deliverAux_spec] at h2
    simp only [Except.ok.injEq, Prod.mk.injEq] at h2
    rw [← h2.2]
    exact ⟨rfl, List.subset_append_left _ _⟩

def c10B1 : List (Lead × HttpResponse) := [(wLead1, resp500)]

def c10B2 : List (Lead × HttpResponse) := [(wLead2, resp500)]

def c10D1 : CINCProDeliverer := (deliverAux "t" wDeliverer c10B1).2

def c10O1 : List PyVal := (deliverAux "t" wDeliverer c10B1).1

def c10D2 : CINCProDeliverer := (deliverAux "u" c10D1 c10B2).2

def c10O2 : List PyVal := (deliverAux "u" c10D1 c10B2).1

/-- Witness for C10 at two concrete one-lead batches that both fail. -/
theorem failed_leads_accumulate_witness :
    wDeliverer.deliver "t" c10B1 = Except.ok (c10O1, c10D1)
    ∧ c10D1.deliver "u" c10B2 = Except.ok (c10O2, c10D2)
    ∧ (c10D2.get_failure_leads = c10D1.get_failure_leads ++ c10B2.filterMap failEntryOf
       ∧ c10D1.get_failure_leads ⊆ c10D2.get_failure_leads) :=
  ⟨rfl, rfl,
   failed_leads_accumulate wDeliverer c10D1 c10D2 "t" "u" c10B1 c10B2 c10O1 c10O2 rfl rfl⟩

end CincPro
